import Mathlib

/-!
Shallow embedding of the pmu_example repository's user-space tools
(`busy_sync.c`, `image_render.c`, `xe_mem_regions.c`,
`ask_yes_or_quit.c`).  Pure helper functions are translated directly
into Lean functions; the control flow of `main` in `busy_sync.c` is
modelled as a function from an environment (the outcome of every
fallible driver call and the data the capability queries return) to the
list of driver calls issued and the final outcome.  Machine integers
are modelled as `Nat` with explicit reduction modulo `2 ^ 32` where the
C code can overflow; fallible lookups return `Option`.
-/

/-- Engine class constant `DRM_XE_ENGINE_CLASS_RENDER` from the Xe uapi. -/
def DRM_XE_ENGINE_CLASS_RENDER : Nat := 0

/-- Engine class constant `DRM_XE_ENGINE_CLASS_COPY` from the Xe uapi. -/
def DRM_XE_ENGINE_CLASS_COPY : Nat := 1

/-- Memory region class constant `DRM_XE_MEM_REGION_CLASS_SYSMEM`. -/
def DRM_XE_MEM_REGION_CLASS_SYSMEM : Nat := 0

/-- Memory region class constant `DRM_XE_MEM_REGION_CLASS_VRAM`. -/
def DRM_XE_MEM_REGION_CLASS_VRAM : Nat := 1

/-- The fields of `struct drm_xe_engine_class_instance`. -/
structure EngineClassInstance where
  engine_class : Nat
  engine_instance : Nat
  gt_id : Nat
  deriving DecidableEq, Repr

/-- `struct drm_xe_engine`: wraps the class/instance triple (the C
field is called `instance`, a reserved word in Lean). -/
structure Engine where
  inst : EngineClassInstance
  deriving DecidableEq, Repr

/-- The fields of `struct drm_xe_mem_region` that the programs read
(`instance` is again renamed to `inst`). -/
structure MemRegion where
  mem_class : Nat
  inst : Nat
  min_page_size : Nat
  deriving DecidableEq, Repr

/-- Scan loop of `pick_render_engine` (the function appears verbatim in
both `busy_sync.c` and `image_render.c`): return the first engine whose
class is `DRM_XE_ENGINE_CLASS_RENDER`; `none` models the fatal
`exit(EXIT_FAILURE)` taken when no render engine exists. -/
def pick_render_engine : List Engine → Option EngineClassInstance
  | [] => none
  | e :: rest =>
      if e.inst.engine_class = DRM_XE_ENGINE_CLASS_RENDER then some e.inst
      else pick_render_engine rest

/-- Accumulator loop of `pick_sysmem_placement`: `placement` is the
`uint32_t` OR-mask built from `1u << r->instance` (the shift reduced
modulo `2 ^ 32` as on the C type), `mps` the running `min_page_size`
maximum. -/
def pick_sysmem_loop : List MemRegion → Nat → Nat → Nat × Nat
  | [], placement, mps => (placement, mps)
  | r :: rest, placement, mps =>
      if r.mem_class = DRM_XE_MEM_REGION_CLASS_SYSMEM then
        pick_sysmem_loop rest (placement ||| ((1 <<< r.inst) % 2 ^ 32))
          (if mps < r.min_page_size then r.min_page_size else mps)
      else
        pick_sysmem_loop rest placement mps

/-- `pick_sysmem_placement` (verbatim in both `busy_sync.c` and
`image_render.c`): returns the SYSMEM placement mask together with the
effective `min_page_size`, whose accumulator starts at 4096 as in the C
code. -/
def pick_sysmem_placement (regions : List MemRegion) : Nat × Nat :=
  pick_sysmem_loop regions 0 4096

/-- Maximum of `min_page_size` over the regions whose class is system
memory, with the empty maximum read as 0.  This is the quantity named
by the spec sentence "track the maximum `min_page_size` among matches"
(it is also exactly what `main` of `xe_mem_regions.c` computes, whose
accumulator starts at 0). -/
def sysmem_max_page_size (regions : List MemRegion) : Nat :=
  ((regions.filter fun r =>
      r.mem_class == DRM_XE_MEM_REGION_CLASS_SYSMEM).map
    (fun r => r.min_page_size)).foldl max 0

/-- Modelled from the spec: the kernel-side VM_BIND alignment contract
("bind succeeds iff both are multiples of the selected region's
`min_page_size`").  The kernel implementation is not part of this
repository's sources, so the success criterion is taken from the spec's
words. -/
def bind_ok (mps va range : Nat) : Bool :=
  (va % mps == 0) && (range % mps == 0)

/-- One `scanf(" %c", &c)` read from a modelled input stream: `none` is
a failed read, and an exhausted stream keeps failing. -/
def readChar : List (Option Char) → Option Char × List (Option Char)
  | [] => (none, [])
  | r :: rest => (r, rest)

/-- Loop of `ask_yes_or_quit`, carried by `remaining = 3 - attempts`
invalid attempts left; the C code returns `'q'` as soon as `attempts`
reaches 3, so `remaining = 0` is unreachable from the entry point. -/
def askLoop : Nat → List (Option Char) → Char
  | 0, _ => 'q'
  | remaining + 1, inp =>
      match readChar inp with
      | (some c, rest) =>
          if c = 'y' ∨ c = 'Y' then 'y'
          else if c = 'q' ∨ c = 'Q' then 'q'
          else if remaining + 1 ≤ 1 then 'q'
          else askLoop remaining rest
      | (none, rest) =>
          if remaining + 1 ≤ 1 then 'q'
          else askLoop remaining rest

/-- `ask_yes_or_quit` from `ask_yes_or_quit.c`: `attempts` starts at 0,
so three invalid attempts remain. -/
def ask_yes_or_quit (input : List (Option Char)) : Char :=
  askLoop 3 input

/-- A read is invalid for `ask_yes_or_quit` when it fails or yields a
character other than `y`, `Y`, `q`, `Q` (both cases bump `attempts`). -/
def invalidRead : Option Char → Bool
  | none => true
  | some c => !(c == 'y' || c == 'Y' || c == 'q' || c == 'Q')

/-- Connector status constant `DRM_MODE_CONNECTED` from the KMS uapi. -/
def DRM_MODE_CONNECTED : Nat := 1

/-- The fields of `drmModeConnector` read by `kms_setup_basic`; modes
are abstracted to identifiers, and `encoder_id = 0` is "no current
encoder" as in the C test `if (conn->encoder_id)`. -/
structure Connector where
  connector_id : Nat
  connection : Nat
  modes : List Nat
  encoder_id : Nat
  deriving DecidableEq, Repr

/-- The field of `drmModeEncoder` read by `kms_setup_basic`. -/
structure Encoder where
  crtc_id : Nat
  deriving DecidableEq, Repr

/-- The fields of `drmModeRes` read by `kms_setup_basic`. -/
structure KmsRes where
  connectors : List Nat
  encoders : List Nat
  crtcs : List Nat
  deriving DecidableEq, Repr

/-- The display environment: `drmModeGetConnector` and
`drmModeGetEncoder` lookups, which may fail (`none` models a NULL
return). -/
structure KmsEnv where
  getConnector : Nat → Option Connector
  getEncoder : Nat → Option Encoder

/-- The fields of `struct kms_info` filled by `kms_setup_basic`. -/
structure KmsInfo where
  conn_id : Nat
  crtc_id : Nat
  mode : Nat
  deriving DecidableEq, Repr

/-- Connector loop of `kms_setup_basic` in `image_render.c`: the first
id in array order whose `drmModeGetConnector` succeeds, reports
`DRM_MODE_CONNECTED` and has a non-empty mode list; ids whose lookup
fails are skipped, as in the C `continue`. -/
def find_connector (env : KmsEnv) : List Nat → Option Connector
  | [] => none
  | id :: rest =>
      match env.getConnector id with
      | none => find_connector env rest
      | some c =>
          if c.connection = DRM_MODE_CONNECTED ∧ 0 < c.modes.length then
            some c
          else find_connector env rest

/-- `kms_setup_basic` from `image_render.c`: select the connector, take
the first mode of its list, resolve the encoder (the connector's
current one when `encoder_id` is non-zero and the lookup succeeds, else
the first encoder of the resource list), and take that encoder's
`crtc_id`.  `none` models the two fatal `exit(EXIT_FAILURE)` paths. -/
def kms_setup_basic (env : KmsEnv) (res : KmsRes) : Option KmsInfo :=
  match find_connector env res.connectors with
  | none => none
  | some conn =>
      let enc0 : Option Encoder :=
        if conn.encoder_id ≠ 0 then env.getEncoder conn.encoder_id else none
      let enc : Option Encoder :=
        match enc0 with
        | some e => some e
        | none =>
            match res.encoders with
            | [] => none
            | e1 :: _ => env.getEncoder e1
      match enc with
      | none => none
      | some e =>
          some { conn_id := conn.connector_id, crtc_id := e.crtc_id,
                 mode := conn.modes.headD 0 }

/-- Specification-shaped restatement of the amended display-attach
rule, written with `findSome?` and `head?` following the spec's words:
first connected connector with a non-empty mode list, its first mode,
the CRTC of its current encoder when present, else the CRTC of the
first encoder in the resource list, else fatal. -/
def kms_setup_spec (env : KmsEnv) (res : KmsRes) : Option KmsInfo :=
  (res.connectors.findSome? fun id =>
      (env.getConnector id).bind fun c =>
        if c.connection = DRM_MODE_CONNECTED ∧ 0 < c.modes.length then some c
        else none).bind fun conn =>
    (Option.orElse
        (if conn.encoder_id ≠ 0 then env.getEncoder conn.encoder_id else none)
        (fun _ => res.encoders.head?.bind env.getEncoder)).map fun e =>
      { conn_id := conn.connector_id, crtc_id := e.crtc_id,
        mode := conn.modes.headD 0 }

/-- `BO_SIZE` from `busy_sync.c`. -/
def BO_SIZE : Nat := 4096

/-- `BIND_ADDRESS` from `busy_sync.c` (0x1000000). -/
def BIND_ADDRESS : Nat := 16777216

/-- `INT64_MAX`, the timeout `wait_syncobj` always passes. -/
def INT64_MAX : Int := 9223372036854775807

/-- The fields of `struct drm_syncobj_wait` as filled by `wait_syncobj`
(the function appears verbatim in both `busy_sync.c` and
`image_render.c`). -/
structure SyncobjWaitArgs where
  handles : List Nat
  timeout_nsec : Int
  count_handles : Nat
  flags : Nat
  first_signaled : Nat
  deadline_nsec : Int
  deriving DecidableEq, Repr

/-- The wait request `wait_syncobj` builds before issuing
`DRM_IOCTL_SYNCOBJ_WAIT`: one handle, `timeout_nsec = INT64_MAX`, no
deadline. -/
def wait_syncobj_request (handle : Nat) : SyncobjWaitArgs :=
  { handles := [handle], timeout_nsec := INT64_MAX, count_handles := 1,
    flags := 0, first_signaled := 0, deadline_nsec := 0 }

/-- The fields of `struct drm_xe_exec_queue_create` as filled by `main`
of `busy_sync.c` and, identically, by `main` of `image_render.c`. -/
structure ExecQueueCreateArgs where
  width : Nat
  num_placements : Nat
  vm_id : Nat
  instances : List EngineClassInstance
  deriving DecidableEq, Repr

/-- The exec-queue creation request both programs build: width 1, one
placement, a single engine instance. -/
def exec_queue_create_request (vm_id : Nat) (inst : EngineClassInstance) :
    ExecQueueCreateArgs :=
  { width := 1, num_placements := 1, vm_id := vm_id, instances := [inst] }

/-- One driver call issued by `main` of `busy_sync.c` (plus the
"no SYSMEM region" warning print and the unreached teardown calls). -/
inductive Act where
  | vmCreate
  | memQuerySize
  | memQueryFill
  | warnNoSysmem
  | gemCreate (placement : Nat) (size : Nat)
  | mmapOffset
  | mmapBo
  | vmBind (addr : Nat) (range : Nat)
  | engQuerySize
  | engQueryFill
  | execQueueCreate (width : Nat) (num_placements : Nat)
      (insts : List EngineClassInstance)
  | syncobjCreate
  | syncReset
  | execSubmit
  | syncWait (timeout_nsec : Int)
  | munmapBo
  | closeFd
  deriving DecidableEq, Repr

/-- Final state of a (fuel-bounded) run of `main`: `die`/`exit` paths
versus "still in the infinite loop". -/
inductive Outcome where
  | fatal
  | running
  deriving DecidableEq, Repr

/-- Environment of a run of `busy_sync.c`: the success of each fallible
driver call (per loop iteration for the steady-state loop) and the data
the two capability queries return. -/
structure Env where
  vmCreateOk : Bool
  memQuerySizeOk : Bool
  memQueryFillOk : Bool
  gemCreateOk : Bool
  mmapOffsetOk : Bool
  mmapOk : Bool
  vmBindOk : Bool
  engQuerySizeOk : Bool
  engQueryFillOk : Bool
  execQueueCreateOk : Bool
  syncCreateOk : Bool
  regions : List MemRegion
  engines : List Engine
  resetOk : Nat → Bool
  execOk : Nat → Bool
  waitOk : Nat → Bool

/-- The body of the steady-state `while (1)` loop of `busy_sync.c`:
`reset_syncobj`, then `DRM_IOCTL_XE_EXEC`, then `wait_syncobj`. -/
def loopIterActs : List Act :=
  [Act.syncReset, Act.execSubmit, Act.syncWait INT64_MAX]

/-- Fuel-bounded unfolding of the steady-state loop, starting at
iteration `i`: each iteration resets the fence, submits once, waits;
any failing call dies (`Outcome.fatal`); exhausted fuel leaves the
program still looping (`Outcome.running`). -/
def loopGo (env : Env) (i : Nat) : Nat → List Act × Outcome
  | 0 => ([], Outcome.running)
  | fuel + 1 =>
      if env.resetOk i then
        if env.execOk i then
          if env.waitOk i then
            let rest := loopGo env (i + 1) fuel
            (loopIterActs ++ rest.1, rest.2)
          else ([Act.syncReset, Act.execSubmit, Act.syncWait INT64_MAX],
                Outcome.fatal)
        else ([Act.syncReset, Act.execSubmit], Outcome.fatal)
      else ([Act.syncReset], Outcome.fatal)

/-- `main` of `busy_sync.c` as a trace generator: VM create, memory
placement scan (emitting the warning when the mask is zero), GEM
create, mmap-offset query and mmap, synchronous VM_BIND of the buffer
at `BIND_ADDRESS` with range `BO_SIZE`, engine query and render-engine
pick (fatal when none), exec-queue create with width 1 and a single
placement, syncobj create, then the submit loop.  Every failing call
makes `die` terminate the process at once: the failing call is the last
act of the trace and the outcome is `Outcome.fatal`. -/
def busySyncMain (env : Env) (fuel : Nat) : List Act × Outcome :=
  if env.vmCreateOk then
    if env.memQuerySizeOk then
      if env.memQueryFillOk then
        let pm := pick_sysmem_placement env.regions
        let pre : List Act :=
          [Act.vmCreate, Act.memQuerySize, Act.memQueryFill] ++
            (if pm.1 = 0 then [Act.warnNoSysmem] else [])
        if env.gemCreateOk then
          if env.mmapOffsetOk then
            if env.mmapOk then
              let pre2 := pre ++
                [Act.gemCreate pm.1 BO_SIZE, Act.mmapOffset, Act.mmapBo]
              if env.vmBindOk then
                let pre3 := pre2 ++ [Act.vmBind BIND_ADDRESS BO_SIZE]
                if env.engQuerySizeOk then
                  if env.engQueryFillOk then
                    let pre4 := pre3 ++ [Act.engQuerySize, Act.engQueryFill]
                    match pick_render_engine env.engines with
                    | none => (pre4, Outcome.fatal)
                    | some inst =>
                        if env.execQueueCreateOk then
                          let pre5 := pre4 ++
                            [Act.execQueueCreate 1 1 [inst]]
                          if env.syncCreateOk then
                            let lp := loopGo env 0 fuel
                            (pre5 ++ [Act.syncobjCreate] ++ lp.1, lp.2)
                          else (pre5 ++ [Act.syncobjCreate], Outcome.fatal)
                        else (pre4 ++ [Act.execQueueCreate 1 1 [inst]],
                              Outcome.fatal)
                  else (pre3 ++ [Act.engQuerySize, Act.engQueryFill],
                        Outcome.fatal)
                else (pre3 ++ [Act.engQuerySize], Outcome.fatal)
              else (pre2 ++ [Act.vmBind BIND_ADDRESS BO_SIZE], Outcome.fatal)
            else (pre ++ [Act.gemCreate pm.1 BO_SIZE, Act.mmapOffset,
                  Act.mmapBo], Outcome.fatal)
          else (pre ++ [Act.gemCreate pm.1 BO_SIZE, Act.mmapOffset],
                Outcome.fatal)
        else (pre ++ [Act.gemCreate pm.1 BO_SIZE], Outcome.fatal)
      else ([Act.vmCreate, Act.memQuerySize, Act.memQueryFill],
            Outcome.fatal)
    else ([Act.vmCreate, Act.memQuerySize], Outcome.fatal)
  else ([Act.vmCreate], Outcome.fatal)

/-- The single submit cycle of `main` in `image_render.c` (lines
491-495): reset the fence, submit the dummy batch once on the exec
queue, wait on the fence with the unbounded timeout. -/
def imageRenderSubmitOnce : List Act :=
  [Act.syncReset, Act.execSubmit, Act.syncWait INT64_MAX]

lemma ite_lt_eq_max (a b : Nat) : (if a < b then b else a) = max a b := by
  split <;> omega

lemma pick_sysmem_loop_fst (regions : List MemRegion) (p m : Nat) :
    (pick_sysmem_loop regions p m).1 =
      ((regions.filter fun r =>
          r.mem_class == DRM_XE_MEM_REGION_CLASS_SYSMEM).map
        (fun r => (1 <<< r.inst) % 2 ^ 32)).foldl (fun acc x => acc ||| x) p := by
  induction regions generalizing p m with
  | nil => simp [pick_sysmem_loop]
  | cons r rest ih =>
      by_cases h : r.mem_class = DRM_XE_MEM_REGION_CLASS_SYSMEM
      · simp [pick_sysmem_loop, h, List.filter_cons, ih]
      · simp [pick_sysmem_loop, h, List.filter_cons, ih]

lemma pick_sysmem_loop_snd (regions : List MemRegion) (p m : Nat) :
    (pick_sysmem_loop regions p m).2 =
      ((regions.filter fun r =>
          r.mem_class == DRM_XE_MEM_REGION_CLASS_SYSMEM).map
        (fun r => r.min_page_size)).foldl max m := by
  induction regions generalizing p m with
  | nil => simp [pick_sysmem_loop]
  | cons r rest ih =>
      by_cases h : r.mem_class = DRM_XE_MEM_REGION_CLASS_SYSMEM
      · simp [pick_sysmem_loop, h, List.filter_cons, ih, ite_lt_eq_max]
      · simp [pick_sysmem_loop, h, List.filter_cons, ih]

lemma foldl_max_pull (l : List Nat) (a b : Nat) :
    l.foldl max (max a b) = max a (l.foldl max b) := by
  induction l generalizing b with
  | nil => rfl
  | cons x xs ih => simpa [List.foldl_cons, Nat.max_assoc] using ih (max b x)

lemma pick_sysmem_no_match_fst (regions : List MemRegion)
    (h : ∀ r ∈ regions, r.mem_class ≠ DRM_XE_MEM_REGION_CLASS_SYSMEM) :
    (pick_sysmem_placement regions).1 = 0 := by
  have hf : (regions.filter fun r =>
      r.mem_class == DRM_XE_MEM_REGION_CLASS_SYSMEM) = [] := by
    rw [List.filter_eq_nil_iff]
    intro r hr
    simpa using h r hr
  simp [pick_sysmem_placement, pick_sysmem_loop_fst, hf]

lemma pick_render_engine_first (pre : List Engine) (e : Engine)
    (post : List Engine)
    (hpre : ∀ e2 ∈ pre, e2.inst.engine_class ≠ DRM_XE_ENGINE_CLASS_RENDER)
    (he : e.inst.engine_class = DRM_XE_ENGINE_CLASS_RENDER) :
    pick_render_engine (pre ++ e :: post) = some e.inst := by
  induction pre with
  | nil => simp [pick_render_engine, he]
  | cons e2 rest ih =>
      have h2 := hpre e2 (List.mem_cons_self e2 rest)
      simp only [List.cons_append, pick_render_engine, if_neg h2]
      exact ih fun e3 h3 => hpre e3 (List.mem_cons_of_mem e2 h3)

lemma pick_render_engine_none (engines : List Engine)
    (h : ∀ e ∈ engines, e.inst.engine_class ≠ DRM_XE_ENGINE_CLASS_RENDER) :
    pick_render_engine engines = none := by
  induction engines with
  | nil => rfl
  | cons e rest ih =>
      have h1 := h e (List.mem_cons_self e rest)
      simp only [pick_render_engine, if_neg h1]
      exact ih fun e2 h2 => h e2 (List.mem_cons_of_mem e h2)

/-- C2: for every engine list returned by the capability query, engine
selection returns the first entry in array order whose class is the
render class, independent of the order or presence of non-render
entries; when no entry has the render class the program dies fatally
and the trace of `main` contains no exec-queue creation, no syncobj
creation and no submit-loop calls. -/
theorem c2_render_engine_selection (engines : List Engine) :
    (∀ pre e post, engines = pre ++ e :: post →
        (∀ e2 ∈ pre, e2.inst.engine_class ≠ DRM_XE_ENGINE_CLASS_RENDER) →
        e.inst.engine_class = DRM_XE_ENGINE_CLASS_RENDER →
        pick_render_engine engines = some e.inst)
    ∧ ((∀ e ∈ engines, e.inst.engine_class ≠ DRM_XE_ENGINE_CLASS_RENDER) →
        pick_render_engine engines = none)
    ∧ (∀ env fuel, env.engines = engines →
        (∀ e ∈ engines, e.inst.engine_class ≠ DRM_XE_ENGINE_CLASS_RENDER) →
        env.vmCreateOk = true → env.memQuerySizeOk = true →
        env.memQueryFillOk = true → env.gemCreateOk = true →
        env.mmapOffsetOk = true → env.mmapOk = true → env.vmBindOk = true →
        env.engQuerySizeOk = true → env.engQueryFillOk = true →
        (busySyncMain env fuel).2 = Outcome.fatal
        ∧ (∀ w np is,
            Act.execQueueCreate w np is ∉ (busySyncMain env fuel).1)
        ∧ Act.syncobjCreate ∉ (busySyncMain env fuel).1
        ∧ Act.syncReset ∉ (busySyncMain env fuel).1
        ∧ Act.execSubmit ∉ (busySyncMain env fuel).1
        ∧ (∀ t, Act.syncWait t ∉ (busySyncMain env fuel).1)) := by
  refine ⟨?_, pick_render_engine_none engines, ?_⟩
  · intro pre e post heq hpre he
    subst heq
    exact pick_render_engine_first pre e post hpre he
  · intro env fuel hE hno h1 h2 h3 h4 h5 h6 h7 h8 h9
    have hpick : pick_render_engine env.engines = none := by
      rw [hE]; exact pick_render_engine_none engines hno
    simp only [busySyncMain, h1, h2, h3, h4, h5, h6, h7, h8, h9, if_true,
      hpick]
    by_cases hp : (pick_sysmem_placement env.regions).1 = 0 <;> simp [hp]

/-- Witness for `c2_render_engine_selection`: on a list holding a COPY
engine before a RENDER engine, selection returns the render instance. -/
theorem c2_render_engine_selection_witness :
    pick_render_engine
        [{ inst := { engine_class := DRM_XE_ENGINE_CLASS_COPY,
                     engine_instance := 0, gt_id := 0 } },
         { inst := { engine_class := DRM_XE_ENGINE_CLASS_RENDER,
                     engine_instance := 1, gt_id := 0 } }]
      = some { engine_class := DRM_XE_ENGINE_CLASS_RENDER,
               engine_instance := 1, gt_id := 0 } :=
  (c2_render_engine_selection _).1
    [{ inst := { engine_class := DRM_XE_ENGINE_CLASS_COPY,
                 engine_instance := 0, gt_id := 0 } }]
    { inst := { engine_class := DRM_XE_ENGINE_CLASS_RENDER,
                engine_instance := 1, gt_id := 0 } }
    [] rfl (by decide) (by decide)

/-- C3: the placement mask is the 32-bit OR of `1 << instance` over
exactly the SYSMEM regions; with no match the scan returns mask zero,
logs the warning and `main` still proceeds to the GEM allocation call
(with the zero mask) instead of failing in the scan. -/
theorem c3_sysmem_placement_scan (regions : List MemRegion) :
    (pick_sysmem_placement regions).1 =
      ((regions.filter fun r =>
          r.mem_class == DRM_XE_MEM_REGION_CLASS_SYSMEM).map
        (fun r => (1 <<< r.inst) % 2 ^ 32)).foldl (fun acc x => acc ||| x) 0
    ∧ ((∀ r ∈ regions, r.mem_class ≠ DRM_XE_MEM_REGION_CLASS_SYSMEM) →
        (pick_sysmem_placement regions).1 = 0)
    ∧ (∀ env fuel, env.regions = regions →
        (∀ r ∈ regions, r.mem_class ≠ DRM_XE_MEM_REGION_CLASS_SYSMEM) →
        env.vmCreateOk = true → env.memQuerySizeOk = true →
        env.memQueryFillOk = true →
        Act.warnNoSysmem ∈ (busySyncMain env fuel).1
        ∧ Act.gemCreate 0 BO_SIZE ∈ (busySyncMain env fuel).1) := by
  refine ⟨pick_sysmem_loop_fst regions 0 4096,
    pick_sysmem_no_match_fst regions, ?_⟩
  intro env fuel hE hno h1 h2 h3
  have h0 : (pick_sysmem_placement env.regions).1 = 0 := by
    rw [hE]; exact pick_sysmem_no_match_fst regions hno
  refine ⟨?_, ?_⟩ <;>
    · simp only [busySyncMain, h1, h2, h3, if_true, h0]
      repeat' split
      all_goals simp

/-- Witness for `c3_sysmem_placement_scan`: on a region list holding a
single VRAM region, the mask is zero, the warning is logged, and the
GEM allocation is still attempted. -/
theorem c3_sysmem_placement_scan_witness :
    (pick_sysmem_placement
        [{ mem_class := DRM_XE_MEM_REGION_CLASS_VRAM, inst := 0,
           min_page_size := 4096 }]).1 = 0
    ∧ Act.warnNoSysmem ∈
        (busySyncMain
          { vmCreateOk := true, memQuerySizeOk := true,
            memQueryFillOk := true, gemCreateOk := true,
            mmapOffsetOk := true, mmapOk := true, vmBindOk := true,
            engQuerySizeOk := true, engQueryFillOk := true,
            execQueueCreateOk := true, syncCreateOk := true,
            regions := [{ mem_class := DRM_XE_MEM_REGION_CLASS_VRAM,
                          inst := 0, min_page_size := 4096 }],
            engines := [], resetOk := fun _ => true,
            execOk := fun _ => true, waitOk := fun _ => true } 0).1 := by
  have h := (c3_sysmem_placement_scan
      [{ mem_class := DRM_XE_MEM_REGION_CLASS_VRAM, inst := 0,
         min_page_size := 4096 }])
  exact ⟨h.2.1 (by decide),
    (h.2.2 _ 0 rfl (by decide) rfl rfl rfl).1⟩

/-- C4 counterexample: on a region list whose only SYSMEM region has
`min_page_size = 1024`, the scan reports 4096 (its accumulator starts
at 4096), not the maximum 1024 over the matching regions claimed. -/
theorem c4_counterexample :
    (pick_sysmem_placement
        [{ mem_class := DRM_XE_MEM_REGION_CLASS_SYSMEM, inst := 0,
           min_page_size := 1024 }]).2 = 4096
    ∧ sysmem_max_page_size
        [{ mem_class := DRM_XE_MEM_REGION_CLASS_SYSMEM, inst := 0,
           min_page_size := 1024 }] = 1024
    ∧ (4096 : Nat) ≠ 1024 := by decide

/-- C4 amended: the `min_page_size` produced by placement selection is
the maximum of 4096 and the `min_page_size` values of the regions whose
class is system memory (so it equals the plain maximum only when some
match reaches 4096). -/
theorem c4_amended_max_page_size (regions : List MemRegion) :
    (pick_sysmem_placement regions).2 =
      max 4096 (sysmem_max_page_size regions) := by
  rw [pick_sysmem_placement, pick_sysmem_loop_snd, sysmem_max_page_size]
  have h2 := foldl_max_pull ((regions.filter fun r =>
      r.mem_class == DRM_XE_MEM_REGION_CLASS_SYSMEM).map
    (fun r => r.min_page_size)) 4096 0
  simpa using h2

lemma find_connector_eq (env : KmsEnv) (ids : List Nat) :
    find_connector env ids =
      ids.findSome? fun id =>
        (env.getConnector id).bind fun c =>
          if c.connection = DRM_MODE_CONNECTED ∧ 0 < c.modes.length then
            some c
          else none := by
  induction ids with
  | nil => rfl
  | cons id rest ih =>
      cases h : env.getConnector id with
      | none => simp [find_connector, List.findSome?_cons, h, ih]
      | some c =>
          by_cases hc : c.connection = DRM_MODE_CONNECTED ∧ 0 < c.modes.length
          · simp [find_connector, List.findSome?_cons, h, hc]
          · simp [find_connector, List.findSome?_cons, h, hc, ih]

/-- The display environment of the C5 counterexample: one connector
(id 1), connected, one mode, with no current encoder; one encoder
(id 5) whose CRTC is 7. -/
def kmsEnvC5 : KmsEnv where
  getConnector := fun id =>
    if id = 1 then
      some { connector_id := 1, connection := DRM_MODE_CONNECTED,
             modes := [77], encoder_id := 0 }
    else none
  getEncoder := fun id =>
    if id = 5 then some { crtc_id := 7 } else none

/-- The resource list of the C5 counterexample: encoder list `[5]`,
CRTC list `[9]`. -/
def kmsResC5 : KmsRes where
  connectors := [1]
  encoders := [5]
  crtcs := [9]

/-- C5 counterexample: the chosen connector has no current encoder
(`encoder_id = 0`), the first CRTC in the resource list is 9, yet
`kms_setup_basic` selects CRTC 7 — the CRTC of the first *encoder* in
the resource list — so the claimed fallback to the first CRTC is false
on the code. -/
theorem c5_counterexample :
    kms_setup_basic kmsEnvC5 kmsResC5 =
      some { conn_id := 1, crtc_id := 7, mode := 77 }
    ∧ (kmsEnvC5.getConnector 1).map Connector.encoder_id = some 0
    ∧ kmsResC5.crtcs.head? = some 9
    ∧ (7 : Nat) ≠ 9 := by decide

/-- C5 amended: display attach selects the first connector in list
order that is connected with a non-empty mode list, uses that
connector's first mode, and selects the CRTC of the connector's current
encoder if one is present, else the CRTC of the first *encoder* in the
resource list (when that lookup succeeds), else fails fatally —
`kms_setup_basic` coincides with this specification-shaped selection
rule on every enumeration of display resources. -/
theorem c5_amended_kms_setup (env : KmsEnv) (res : KmsRes) :
    kms_setup_basic env res = kms_setup_spec env res := by
  unfold kms_setup_basic kms_setup_spec
  rw [find_connector_eq]
  cases res.connectors.findSome? fun id =>
      (env.getConnector id).bind fun c =>
        if c.connection = DRM_MODE_CONNECTED ∧ 0 < c.modes.length then some c
        else none with
  | none => rfl
  | some conn =>
      cases h0 : (if conn.encoder_id = 0 then none
          else env.getEncoder conn.encoder_id) with
      | some e => simp [Option.orElse, h0]
      | none =>
          cases res.encoders with
          | nil => simp [Option.orElse, h0]
          | cons e1 rest =>
              cases h1 : env.getEncoder e1 with
              | none => simp [Option.orElse, h0, h1]
              | some e => simp [Option.orElse, h0, h1]

/-- An all-success environment whose memory-region list holds a single
SYSMEM region with `min_page_size = 65536` (the 64K large-page case the
repository's own `xe_mem_regions.c` diagnoses) and a render engine. -/
def envC1 : Env where
  vmCreateOk := true
  memQuerySizeOk := true
  memQueryFillOk := true
  gemCreateOk := true
  mmapOffsetOk := true
  mmapOk := true
  vmBindOk := true
  engQuerySizeOk := true
  engQueryFillOk := true
  execQueueCreateOk := true
  syncCreateOk := true
  regions := [{ mem_class := DRM_XE_MEM_REGION_CLASS_SYSMEM, inst := 0,
                min_page_size := 65536 }]
  engines := [{ inst := { engine_class := DRM_XE_ENGINE_CLASS_RENDER,
                          engine_instance := 0, gt_id := 0 } }]
  resetOk := fun _ => true
  execOk := fun _ => true
  waitOk := fun _ => true

/-- C1: on a region list whose selected SYSMEM region has
`min_page_size = 65536`, the scan reports 65536, yet `main` still
issues its (only) bind with `addr = BIND_ADDRESS` and the fixed
`range = BO_SIZE = 4096`, which is not a multiple of 65536 — so under
the spec's bind contract (`bind_ok`) this bind fails, refuting the
claim that every bind the program issues is aligned to the selected
region's `min_page_size`. -/
theorem c1_bind_misalignment :
    (pick_sysmem_placement envC1.regions).2 = 65536
    ∧ Act.vmBind BIND_ADDRESS BO_SIZE ∈ (busySyncMain envC1 1).1
    ∧ BIND_ADDRESS % 65536 = 0
    ∧ BO_SIZE % 65536 ≠ 0
    ∧ bind_ok 65536 BIND_ADDRESS BO_SIZE = false := by decide

/-- Test for the submit act of a trace. -/
def isSubmitAct : Act → Bool
  | Act.execSubmit => true
  | _ => false

/-- Test for the fence-wait act of a trace. -/
def isWaitAct : Act → Bool
  | Act.syncWait _ => true
  | _ => false

/-- Test for the fence-reset act of a trace. -/
def isResetAct : Act → Bool
  | Act.syncReset => true
  | _ => false

lemma loopGo_all_ok (env : Env) (hr : ∀ i, env.resetOk i = true)
    (he : ∀ i, env.execOk i = true) (hw : ∀ i, env.waitOk i = true) :
    ∀ fuel i, (loopGo env i fuel).1 =
      (List.replicate fuel loopIterActs).flatten := by
  intro fuel
  induction fuel with
  | zero => intro i; simp [loopGo]
  | succ n ih =>
      intro i
      simp [loopGo, hr i, he i, hw i, ih (i + 1), List.replicate_succ]

lemma pattern_prefix_counts (n k : Nat) :
    (((List.replicate n loopIterActs).flatten.take k).countP isWaitAct ≤
      ((List.replicate n loopIterActs).flatten.take k).countP isSubmitAct)
    ∧ (((List.replicate n loopIterActs).flatten.take k).countP isSubmitAct ≤
      ((List.replicate n loopIterActs).flatten.take k).countP isWaitAct + 1)
    ∧ (((List.replicate n loopIterActs).flatten.take k).countP isSubmitAct ≤
      ((List.replicate n loopIterActs).flatten.take k).countP isResetAct) := by
  induction n generalizing k with
  | zero => simp
  | succ m ih =>
      rw [List.replicate_succ]
      match k with
      | 0 => simp
      | 1 => simp [loopIterActs, isSubmitAct, isWaitAct, isResetAct]
      | 2 => simp [loopIterActs, isSubmitAct, isWaitAct, isResetAct,
              List.countP_cons]
      | (k' + 3) =>
          have h := ih k'
          simp only [List.flatten_cons, loopIterActs, List.cons_append,
            List.nil_append, List.take_succ_cons, List.countP_cons,
            isSubmitAct, isWaitAct, isResetAct] at h ⊢
          omega

/-- C6: when no loop-iteration call fails, the steady-state loop trace
is exactly the cyclic pattern reset, submit, wait repeated once per
iteration (so each iteration resets the fence, hands exactly one
submission to the queue, then blocks on the wait before the next
reset), and in every prefix of the trace the number of waits never
exceeds the number of submits, the number of submits exceeds the number
of waits by at most one (at most one outstanding submission per fence),
and every submit is preceded by its fence reset; the single submit
cycle of `image_render.c` is the same one-iteration pattern. -/
theorem c6_loop_protocol (env : Env) (fuel k : Nat)
    (hr : ∀ i, env.resetOk i = true) (he : ∀ i, env.execOk i = true)
    (hw : ∀ i, env.waitOk i = true) :
    (loopGo env 0 fuel).1 = (List.replicate fuel loopIterActs).flatten
    ∧ ((loopGo env 0 fuel).1.take k).countP isWaitAct ≤
        ((loopGo env 0 fuel).1.take k).countP isSubmitAct
    ∧ ((loopGo env 0 fuel).1.take k).countP isSubmitAct ≤
        ((loopGo env 0 fuel).1.take k).countP isWaitAct + 1
    ∧ ((loopGo env 0 fuel).1.take k).countP isSubmitAct ≤
        ((loopGo env 0 fuel).1.take k).countP isResetAct
    ∧ imageRenderSubmitOnce = loopIterActs := by
  have htr := loopGo_all_ok env hr he hw fuel 0
  have hc := pattern_prefix_counts fuel k
  rw [htr]
  exact ⟨rfl, hc.1, hc.2.1, hc.2.2, rfl⟩

/-- Witness for `c6_loop_protocol` at the all-success environment
`envC1`, two loop iterations, prefix length four. -/
theorem c6_loop_protocol_witness :
    (loopGo envC1 0 2).1 = (List.replicate 2 loopIterActs).flatten
    ∧ ((loopGo envC1 0 2).1.take 4).countP isSubmitAct ≤
        ((loopGo envC1 0 2).1.take 4).countP isWaitAct + 1 :=
  ⟨(c6_loop_protocol envC1 2 4 (fun _ => rfl) (fun _ => rfl)
      (fun _ => rfl)).1,
   (c6_loop_protocol envC1 2 4 (fun _ => rfl) (fun _ => rfl)
      (fun _ => rfl)).2.2.1⟩

/-- The run of `main` dies with `a` as the very last call it makes: the
outcome is fatal, nothing follows the failing call, no call is ever
retried (the trace has no duplicate act) and no teardown/rollback call
(`munmap`, `close`) is made before termination. -/
def diesAt (env : Env) (fuel : Nat) (a : Act) : Prop :=
  ∃ pre, busySyncMain env fuel = (pre ++ [a], Outcome.fatal)
    ∧ (pre ++ [a]).Nodup
    ∧ Act.munmapBo ∉ pre ++ [a]
    ∧ Act.closeFd ∉ pre ++ [a]

/-- C7: each capability-query failure (memory-region or engine query,
size probe or fill call), allocation failure, bind failure, and
queue-creation failure reached by the run makes the process die
immediately: the failing call is the last act of the trace, the outcome
is fatal, no call is retried and no already-created resource is rolled
back before termination. -/
theorem c7_fatal_setup_policy (env : Env) (fuel : Nat) :
    (env.vmCreateOk = true → env.memQuerySizeOk = false →
        diesAt env fuel Act.memQuerySize)
    ∧ (env.vmCreateOk = true → env.memQuerySizeOk = true →
        env.memQueryFillOk = false → diesAt env fuel Act.memQueryFill)
    ∧ (env.vmCreateOk = true → env.memQuerySizeOk = true →
        env.memQueryFillOk = true → env.gemCreateOk = false →
        diesAt env fuel
          (Act.gemCreate (pick_sysmem_placement env.regions).1 BO_SIZE))
    ∧ (env.vmCreateOk = true → env.memQuerySizeOk = true →
        env.memQueryFillOk = true → env.gemCreateOk = true →
        env.mmapOffsetOk = true → env.mmapOk = true →
        env.vmBindOk = false →
        diesAt env fuel (Act.vmBind BIND_ADDRESS BO_SIZE))
    ∧ (env.vmCreateOk = true → env.memQuerySizeOk = true →
        env.memQueryFillOk = true → env.gemCreateOk = true →
        env.mmapOffsetOk = true → env.mmapOk = true →
        env.vmBindOk = true → env.engQuerySizeOk = false →
        diesAt env fuel Act.engQuerySize)
    ∧ (env.vmCreateOk = true → env.memQuerySizeOk = true →
        env.memQueryFillOk = true → env.gemCreateOk = true →
        env.mmapOffsetOk = true → env.mmapOk = true →
        env.vmBindOk = true → env.engQuerySizeOk = true →
        env.engQueryFillOk = false → diesAt env fuel Act.engQueryFill)
    ∧ (∀ i, env.vmCreateOk = true → env.memQuerySizeOk = true →
        env.memQueryFillOk = true → env.gemCreateOk = true →
        env.mmapOffsetOk = true → env.mmapOk = true →
        env.vmBindOk = true → env.engQuerySizeOk = true →
        env.engQueryFillOk = true →
        pick_render_engine env.engines = some i →
        env.execQueueCreateOk = false →
        diesAt env fuel (Act.execQueueCreate 1 1 [i])) := by
  refine ⟨?_, ?_, ?_, ?_, ?_, ?_, ?_⟩
  · intro h1 h2
    exact ⟨[Act.vmCreate], by simp [busySyncMain, h1, h2], by decide,
      by decide, by decide⟩
  · intro h1 h2 h3
    exact ⟨[Act.vmCreate, Act.memQuerySize],
      by simp [busySyncMain, h1, h2, h3], by decide, by decide, by decide⟩
  · intro h1 h2 h3 h4
    refine ⟨[Act.vmCreate, Act.memQuerySize, Act.memQueryFill] ++
      (if (pick_sysmem_placement env.regions).1 = 0 then [Act.warnNoSysmem]
       else []), ?_, ?_, ?_, ?_⟩ <;>
      by_cases hp : (pick_sysmem_placement env.regions).1 = 0 <;>
        simp [busySyncMain, h1, h2, h3, h4, hp]
  · intro h1 h2 h3 h4 h5 h6 h7
    refine ⟨[Act.vmCreate, Act.memQuerySize, Act.memQueryFill] ++
      (if (pick_sysmem_placement env.regions).1 = 0 then [Act.warnNoSysmem]
       else []) ++
      [Act.gemCreate (pick_sysmem_placement env.regions).1 BO_SIZE,
       Act.mmapOffset, Act.mmapBo], ?_, ?_, ?_, ?_⟩ <;>
      by_cases hp : (pick_sysmem_placement env.regions).1 = 0 <;>
        simp [busySyncMain, h1, h2, h3, h4, h5, h6, h7, hp]
  · intro h1 h2 h3 h4 h5 h6 h7 h8
    refine ⟨[Act.vmCreate, Act.memQuerySize, Act.memQueryFill] ++
      (if (pick_sysmem_placement env.regions).1 = 0 then [Act.warnNoSysmem]
       else []) ++
      [Act.gemCreate (pick_sysmem_placement env.regions).1 BO_SIZE,
       Act.mmapOffset, Act.mmapBo, Act.vmBind BIND_ADDRESS BO_SIZE],
      ?_, ?_, ?_, ?_⟩ <;>
      by_cases hp : (pick_sysmem_placement env.regions).1 = 0 <;>
        simp [busySyncMain, h1, h2, h3, h4, h5, h6, h7, h8, hp]
  · intro h1 h2 h3 h4 h5 h6 h7 h8 h9
    refine ⟨[Act.vmCreate, Act.memQuerySize, Act.memQueryFill] ++
      (if (pick_sysmem_placement env.regions).1 = 0 then [Act.warnNoSysmem]
       else []) ++
      [Act.gemCreate (pick_sysmem_placement env.regions).1 BO_SIZE,
       Act.mmapOffset, Act.mmapBo, Act.vmBind BIND_ADDRESS BO_SIZE,
       Act.engQuerySize], ?_, ?_, ?_, ?_⟩ <;>
      by_cases hp : (pick_sysmem_placement env.regions).1 = 0 <;>
        simp [busySyncMain, h1, h2, h3, h4, h5, h6, h7, h8, h9, hp]
  · intro i h1 h2 h3 h4 h5 h6 h7 h8 h9 hpick h10
    refine ⟨[Act.vmCreate, Act.memQuerySize, Act.memQueryFill] ++
      (if (pick_sysmem_placement env.regions).1 = 0 then [Act.warnNoSysmem]
       else []) ++
      [Act.gemCreate (pick_sysmem_placement env.regions).1 BO_SIZE,
       Act.mmapOffset, Act.mmapBo, Act.vmBind BIND_ADDRESS BO_SIZE,
       Act.engQuerySize, Act.engQueryFill], ?_, ?_, ?_, ?_⟩ <;>
      by_cases hp : (pick_sysmem_placement env.regions).1 = 0 <;>
        simp [busySyncMain, h1, h2, h3, h4, h5, h6, h7, h8, h9, hpick, h10,
          hp]

lemma loopGo_mem (env : Env) (a : Act) :
    ∀ fuel i, a ∈ (loopGo env i fuel).1 →
      a = Act.syncReset ∨ a = Act.execSubmit ∨
        a = Act.syncWait INT64_MAX := by
  intro fuel
  induction fuel with
  | zero => intro i h; simp [loopGo] at h
  | succ n ih =>
      intro i h
      simp only [loopGo] at h
      split at h
      · split at h
        · split at h
          · simp only [loopIterActs, List.cons_append, List.nil_append,
              List.mem_cons] at h
            rcases h with h | h | h | h
            · tauto
            · tauto
            · tauto
            · exact ih (i + 1) h
          · simp only [List.mem_cons, List.mem_singleton,
              List.not_mem_nil] at h
            tauto
        · simp only [List.mem_cons, List.mem_singleton,
            List.not_mem_nil] at h
          tauto
      · simp only [List.mem_cons, List.not_mem_nil] at h
        tauto

set_option maxHeartbeats 2000000 in
lemma busySyncMain_mem (env : Env) (fuel : Nat) (a : Act)
    (h : a ∈ (busySyncMain env fuel).1) :
    a = Act.vmCreate ∨ a = Act.memQuerySize ∨ a = Act.memQueryFill ∨
    a = Act.warnNoSysmem ∨
    a = Act.gemCreate (pick_sysmem_placement env.regions).1 BO_SIZE ∨
    a = Act.mmapOffset ∨ a = Act.mmapBo ∨
    a = Act.vmBind BIND_ADDRESS BO_SIZE ∨
    a = Act.engQuerySize ∨ a = Act.engQueryFill ∨
    (∃ i, pick_render_engine env.engines = some i ∧
      a = Act.execQueueCreate 1 1 [i]) ∨
    a = Act.syncobjCreate ∨ a = Act.syncReset ∨ a = Act.execSubmit ∨
    a = Act.syncWait INT64_MAX := by
  cases h1 : env.vmCreateOk with
  | false => simp only [busySyncMain, h1] at h; simp at h; tauto
  | true =>
  cases h2 : env.memQuerySizeOk with
  | false => simp only [busySyncMain, h1, h2] at h; simp at h; tauto
  | true =>
  cases h3 : env.memQueryFillOk with
  | false => simp only [busySyncMain, h1, h2, h3] at h; simp at h; tauto
  | true =>
  cases h4 : env.gemCreateOk with
  | false =>
      simp only [busySyncMain, h1, h2, h3, h4] at h
      simp [List.mem_ite_nil_right] at h
      tauto
  | true =>
  cases h5 : env.mmapOffsetOk with
  | false =>
      simp only [busySyncMain, h1, h2, h3, h4, h5] at h
      simp [List.mem_ite_nil_right] at h
      tauto
  | true =>
  cases h6 : env.mmapOk with
  | false =>
      simp only [busySyncMain, h1, h2, h3, h4, h5, h6] at h
      simp [List.mem_ite_nil_right] at h
      tauto
  | true =>
  cases h7 : env.vmBindOk with
  | false =>
      simp only [busySyncMain, h1, h2, h3, h4, h5, h6, h7] at h
      simp [List.mem_ite_nil_right] at h
      tauto
  | true =>
  cases h8 : env.engQuerySizeOk with
  | false =>
      simp only [busySyncMain, h1, h2, h3, h4, h5, h6, h7, h8] at h
      simp [List.mem_ite_nil_right] at h
      tauto
  | true =>
  cases h9 : env.engQueryFillOk with
  | false =>
      simp only [busySyncMain, h1, h2, h3, h4, h5, h6, h7, h8, h9] at h
      simp [List.mem_ite_nil_right] at h
      tauto
  | true =>
  cases hpick : pick_render_engine env.engines with
  | none =>
      simp only [busySyncMain, h1, h2, h3, h4, h5, h6, h7, h8, h9,
        hpick] at h
      simp [List.mem_ite_nil_right] at h
      tauto
  | some inst =>
  have hex : ∀ b : Act, b = Act.execQueueCreate 1 1 [inst] →
      ∃ i, pick_render_engine env.engines = some i ∧
        b = Act.execQueueCreate 1 1 [i] := fun b hb => ⟨inst, hpick, hb⟩
  cases h10 : env.execQueueCreateOk with
  | false =>
      simp only [busySyncMain, h1, h2, h3, h4, h5, h6, h7, h8, h9,
        hpick, h10] at h
      simp [List.mem_ite_nil_right] at h
      rcases h with h | h | h | h | h | h | h | h | h | h | h
      · tauto
      · tauto
      · tauto
      · tauto
      · tauto
      · tauto
      · tauto
      · tauto
      · tauto
      · tauto
      · exact Or.inr (Or.inr (Or.inr (Or.inr (Or.inr (Or.inr (Or.inr
          (Or.inr (Or.inr (Or.inr (Or.inl ⟨inst, rfl, h⟩))))))))))
  | true =>
  cases h11 : env.syncCreateOk with
  | false =>
      simp only [busySyncMain, h1, h2, h3, h4, h5, h6, h7, h8, h9,
        hpick, h10, h11] at h
      simp [List.mem_ite_nil_right] at h
      rcases h with h | h | h | h | h | h | h | h | h | h | h | h
      · tauto
      · tauto
      · tauto
      · tauto
      · tauto
      · tauto
      · tauto
      · tauto
      · tauto
      · tauto
      · exact Or.inr (Or.inr (Or.inr (Or.inr (Or.inr (Or.inr (Or.inr
          (Or.inr (Or.inr (Or.inr (Or.inl ⟨inst, rfl, h⟩))))))))))
      · tauto
  | true =>
      simp only [busySyncMain, h1, h2, h3, h4, h5, h6, h7, h8, h9,
        hpick, h10, h11] at h
      simp [List.mem_ite_nil_right] at h
      rcases h with h | h | h | h | h | h | h | h | h | h | h | h | h
      · tauto
      · tauto
      · tauto
      · tauto
      · tauto
      · tauto
      · tauto
      · tauto
      · tauto
      · tauto
      · exact Or.inr (Or.inr (Or.inr (Or.inr (Or.inr (Or.inr (Or.inr
          (Or.inr (Or.inr (Or.inr (Or.inl ⟨inst, rfl, h⟩))))))))))
      · tauto
      · have := loopGo_mem env a fuel 0 h
        tauto


lemma int64_max_eq : INT64_MAX = 2 ^ 63 - 1 := by decide

/-- C8: every fence wait the programs issue carries
`timeout_nsec = INT64_MAX` (the maximum representable signed 64-bit
value, an effectively unbounded timeout) and no deadline: the
`wait_syncobj` request itself, every wait act in any run of
`busy_sync.c`'s `main`, and the single wait of `image_render.c`'s
submit cycle; no wait ever carries a smaller (finite) deadline. -/
theorem c8_unbounded_wait_timeout :
    (∀ h, (wait_syncobj_request h).timeout_nsec = 2 ^ 63 - 1
        ∧ (wait_syncobj_request h).deadline_nsec = 0)
    ∧ (∀ env fuel t, Act.syncWait t ∈ (busySyncMain env fuel).1 →
        t = 2 ^ 63 - 1)
    ∧ (∀ t, Act.syncWait t ∈ imageRenderSubmitOnce → t = 2 ^ 63 - 1) := by
  refine ⟨fun h => ⟨int64_max_eq, rfl⟩, ?_, ?_⟩
  · intro env fuel t hmem
    have hshape := busySyncMain_mem env fuel _ hmem
    rcases hshape with h | h | h | h | h | h | h | h | h | h |
        ⟨i, _, h⟩ | h | h | h | h <;> simp_all [INT64_MAX]
  · intro t hmem
    simp only [imageRenderSubmitOnce, List.mem_cons,
      List.not_mem_nil] at hmem
    rcases hmem with h | h | h <;> simp_all [INT64_MAX]

/-- Witness for `c8_unbounded_wait_timeout`: the wait act of a concrete
run of `busy_sync.c`'s loop carries the unbounded timeout. -/
theorem c8_unbounded_wait_timeout_witness :
    Act.syncWait INT64_MAX ∈ (busySyncMain envC1 1).1
    ∧ INT64_MAX = 2 ^ 63 - 1 :=
  ⟨by decide, c8_unbounded_wait_timeout.2.1 envC1 1 INT64_MAX (by decide)⟩

/-- C9: every exec-queue creation the programs issue requests width
exactly 1 and supplies exactly one engine instance: the request record
built identically by both programs has `width = 1`,
`num_placements = 1` and a one-element instance list, and every
exec-queue-creation act in any run of `busy_sync.c`'s `main` has width
1, one placement and a one-element instance list. -/
theorem c9_exec_queue_width_one :
    (∀ vm i, (exec_queue_create_request vm i).width = 1
        ∧ (exec_queue_create_request vm i).num_placements = 1
        ∧ (exec_queue_create_request vm i).instances = [i])
    ∧ (∀ env fuel w np is,
        Act.execQueueCreate w np is ∈ (busySyncMain env fuel).1 →
        w = 1 ∧ np = 1 ∧ is.length = 1) := by
  refine ⟨fun vm i => ⟨rfl, rfl, rfl⟩, ?_⟩
  intro env fuel w np is hmem
  have hshape := busySyncMain_mem env fuel _ hmem
  rcases hshape with h | h | h | h | h | h | h | h | h | h |
      ⟨i, _, h⟩ | h | h | h | h <;> simp_all

/-- Witness for `c9_exec_queue_width_one`: the exec-queue creation act
of a concrete run has width 1, one placement, one instance. -/
theorem c9_exec_queue_width_one_witness :
    Act.execQueueCreate 1 1
        [{ engine_class := DRM_XE_ENGINE_CLASS_RENDER,
           engine_instance := 0, gt_id := 0 }] ∈ (busySyncMain envC1 1).1
    ∧ (1 = 1 ∧ 1 = 1 ∧
        ([{ engine_class := DRM_XE_ENGINE_CLASS_RENDER,
            engine_instance := 0, gt_id := 0 }] :
          List EngineClassInstance).length = 1) :=
  ⟨by decide,
   c9_exec_queue_width_one.2 envC1 1 1 1
     [{ engine_class := DRM_XE_ENGINE_CLASS_RENDER,
        engine_instance := 0, gt_id := 0 }] (by decide)⟩

lemma askLoop_cons_some (n : Nat) (c : Char) (rest : List (Option Char)) :
    askLoop (n + 1) (some c :: rest) =
      if c = 'y' ∨ c = 'Y' then 'y'
      else if c = 'q' ∨ c = 'Q' then 'q'
      else if n + 1 ≤ 1 then 'q' else askLoop n rest := rfl

lemma askLoop_cons_none (n : Nat) (rest : List (Option Char)) :
    askLoop (n + 1) (none :: rest) =
      if n + 1 ≤ 1 then 'q' else askLoop n rest := rfl

lemma askLoop_nil : ∀ rem, askLoop rem [] = 'q'
  | 0 => rfl
  | 1 => rfl
  | (n + 2) => by
      rw [show askLoop (n + 2) [] =
        (if n + 1 + 1 ≤ 1 then 'q' else askLoop (n + 1) []) from rfl]
      rw [if_neg (by omega), askLoop_nil (n + 1)]

lemma askLoop_spec : ∀ (rem : Nat) (inp : List (Option Char)), 0 < rem →
    askLoop rem inp =
      if rem ≤ (inp.takeWhile invalidRead).length then 'q'
      else
        match (inp.drop (inp.takeWhile invalidRead).length).head? with
        | none => 'q'
        | some none => 'q'
        | some (some c) => if c = 'y' ∨ c = 'Y' then 'y' else 'q' := by
  intro rem
  induction rem with
  | zero => intro inp h; omega
  | succ n ih =>
      intro inp _
      cases inp with
      | nil =>
          rw [askLoop_nil]
          simp
      | cons r rest =>
          cases r with
          | none =>
              have ht : ((none :: rest).takeWhile invalidRead) =
                  none :: rest.takeWhile invalidRead := by
                simp [List.takeWhile_cons, invalidRead]
              rw [askLoop_cons_none, ht]
              cases n with
              | zero =>
                  rw [if_pos (by omega), if_pos (by simp)]
              | succ m =>
                  rw [if_neg (by omega), ih rest (by omega)]
                  simp only [List.length_cons, List.drop_succ_cons]
                  by_cases hk : m + 1 ≤ (rest.takeWhile invalidRead).length
                  · rw [if_pos hk, if_pos (by omega)]
                  · rw [if_neg hk, if_neg (by omega)]
          | some c =>
              by_cases hv : invalidRead (some c) = true
              · have hy : ¬(c = 'y' ∨ c = 'Y') := by
                  simp [invalidRead] at hv; tauto
                have hq : ¬(c = 'q' ∨ c = 'Q') := by
                  simp [invalidRead] at hv; tauto
                have ht : ((some c :: rest).takeWhile invalidRead) =
                    some c :: rest.takeWhile invalidRead := by
                  simp [List.takeWhile_cons, hv]
                rw [askLoop_cons_some, if_neg hy, if_neg hq, ht]
                cases n with
                | zero =>
                    rw [if_pos (by omega), if_pos (by simp)]
                | succ m =>
                    rw [if_neg (by omega), ih rest (by omega)]
                    simp only [List.length_cons, List.drop_succ_cons]
                    by_cases hk : m + 1 ≤ (rest.takeWhile invalidRead).length
                    · rw [if_pos hk, if_pos (by omega)]
                    · rw [if_neg hk, if_neg (by omega)]
              · have ht : ((some c :: rest).takeWhile invalidRead) = [] := by
                  simp [List.takeWhile_cons]
                  simpa using hv
                rw [askLoop_cons_some, ht]
                simp only [List.length_nil, List.drop_zero, List.head?_cons]
                by_cases hy : c = 'y' ∨ c = 'Y'
                · simp only [if_pos hy]
                  rw [if_neg (show ¬(n + 1 ≤ 0) by omega)]
                · have hq : c = 'q' ∨ c = 'Q' := by
                    simp [invalidRead] at hv; tauto
                  simp only [if_neg hy, if_pos hq]
                  rw [if_neg (show ¬(n + 1 ≤ 0) by omega)]

/-- C10: `ask_yes_or_quit` terminates on every input stream (it is a
total function of the modelled stream) and returns `'y'` or `'q'`,
always lowercase: after skipping fewer than three invalid reads it
returns `'y'` on reading `'y'` or `'Y'` and `'q'` on reading `'q'` or
`'Q'`; once three invalid reads (failed reads or other characters)
accumulate — in particular when the stream is exhausted — it returns
`'q'`. -/
theorem c10_ask_yes_or_quit (inp : List (Option Char)) :
    (ask_yes_or_quit inp = 'y' ∨ ask_yes_or_quit inp = 'q')
    ∧ (3 ≤ (inp.takeWhile invalidRead).length → ask_yes_or_quit inp = 'q')
    ∧ ((inp.takeWhile invalidRead).length < 3 →
        (inp.drop (inp.takeWhile invalidRead).length).head? = none →
        ask_yes_or_quit inp = 'q')
    ∧ ((inp.takeWhile invalidRead).length < 3 → ∀ c,
        (inp.drop (inp.takeWhile invalidRead).length).head? =
          some (some c) →
        (((c = 'y' ∨ c = 'Y') → ask_yes_or_quit inp = 'y')
          ∧ ((c = 'q' ∨ c = 'Q') → ask_yes_or_quit inp = 'q'))) := by
  rw [ask_yes_or_quit, askLoop_spec 3 inp (by omega)]
  by_cases h3 : 3 ≤ (inp.takeWhile invalidRead).length
  · rw [if_pos h3]
    refine ⟨Or.inr rfl, fun _ => rfl, fun hlt => absurd h3 (by omega),
      fun hlt => absurd h3 (by omega)⟩
  · rw [if_neg h3]
    cases hh : (inp.drop (inp.takeWhile invalidRead).length).head? with
    | none =>
        exact ⟨Or.inr rfl, fun h => absurd h h3, fun _ _ => rfl,
          fun _ c hc => Option.noConfusion hc⟩
    | some r =>
        cases r with
        | none =>
            refine ⟨Or.inr rfl, fun h => absurd h h3, ?_, ?_⟩
            · intro _ h
              exact Option.noConfusion h
            · intro _ c hc
              injection hc with hc
              exact Option.noConfusion hc
        | some c0 =>
            refine ⟨?_, fun h => absurd h h3, ?_, ?_⟩
            · by_cases hy : c0 = 'y' ∨ c0 = 'Y'
              · refine Or.inl ?_
                show (if c0 = 'y' ∨ c0 = 'Y' then 'y' else 'q') = 'y'
                rw [if_pos hy]
              · refine Or.inr ?_
                show (if c0 = 'y' ∨ c0 = 'Y' then 'y' else 'q') = 'q'
                rw [if_neg hy]
            · intro _ h
              exact Option.noConfusion h
            · intro _ c hc
              injection hc with hc
              injection hc with hc
              subst hc
              constructor
              · intro hy
                show (if c0 = 'y' ∨ c0 = 'Y' then 'y' else 'q') = 'y'
                rw [if_pos hy]
              · intro hq
                have hy : ¬(c0 = 'y' ∨ c0 = 'Y') := by
                  rcases hq with h | h <;> subst h <;> decide
                show (if c0 = 'y' ∨ c0 = 'Y' then 'y' else 'q') = 'q'
                rw [if_neg hy]

/-- Witness for `c10_ask_yes_or_quit`: on the stream `x`-read, failed
read, `Y`-read, two invalid reads accumulate and the `'Y'` is accepted,
returning lowercase `'y'`. -/
theorem c10_ask_yes_or_quit_witness :
    (ask_yes_or_quit [some 'x', none, some 'Y'] = 'y'
      ∨ ask_yes_or_quit [some 'x', none, some 'Y'] = 'q')
    ∧ ask_yes_or_quit [some 'x', none, some 'Y'] = 'y' :=
  ⟨(c10_ask_yes_or_quit _).1,
   ((c10_ask_yes_or_quit [some 'x', none, some 'Y']).2.2.2 (by decide) 'Y'
      (by decide)).1 (by decide)⟩

/-- Environment for the C7 witness: the GEM allocation call fails,
everything before it succeeds. -/
def envC7 : Env where
  vmCreateOk := true
  memQuerySizeOk := true
  memQueryFillOk := true
  gemCreateOk := false
  mmapOffsetOk := true
  mmapOk := true
  vmBindOk := true
  engQuerySizeOk := true
  engQueryFillOk := true
  execQueueCreateOk := true
  syncCreateOk := true
  regions := [{ mem_class := DRM_XE_MEM_REGION_CLASS_SYSMEM, inst := 0,
                min_page_size := 4096 }]
  engines := [{ inst := { engine_class := DRM_XE_ENGINE_CLASS_RENDER,
                          engine_instance := 0, gt_id := 0 } }]
  resetOk := fun _ => true
  execOk := fun _ => true
  waitOk := fun _ => true

/-- Witness for `c7_fatal_setup_policy`: when the GEM allocation fails,
the run dies with that allocation as its last call. -/
theorem c7_fatal_setup_policy_witness :
    diesAt envC7 0
      (Act.gemCreate (pick_sysmem_placement envC7.regions).1 BO_SIZE) :=
  (c7_fatal_setup_policy envC7 0).2.2.1 rfl rfl rfl rfl
